import Mathlib

/-!
Verification development for the splat-replay frame-classification pipeline and
recording state machine. The definitions below are shallow embeddings of the
Python source (src/src/recorder.py, src/src/analyzer.py, src/src/image_matcher.py,
src/src/models/rate.py, src/src/battle_result.py). External collaborators
(OpenCV color conversion, OCR, the OBS backend, Python float formatting) are
modelled as explicit parameters or environment records, since they are library
or remote-service behaviour, not code of this repository.
-/

/-! ### Rating model (src/src/models/rate.py)

A rating is either a numeric X-power (class XP, holding a Python float,
modelled as a rational) or an ordinal rank tier (class Udemae, holding the
rank string). Python exceptions raised by compare_rate and the constructors
are modelled as Except results. -/

/-- The two rating variants. XP stores its value unchecked, exactly as
XP.__init__ does; Udemae stores the rank string (validated by udemaeCreate,
the model of Udemae.__init__). -/
inductive RateBase where
  | xp (value : Rat)
  | udemae (rank : String)
deriving DecidableEq

/-- Udemae.RANK_ORDER, the ordered map from rank label to its index. -/
def rankOrder : List (String × Nat) :=
  [("C-", 0), ("C", 1), ("C+", 2),
   ("B-", 3), ("B", 4), ("B+", 5),
   ("A-", 6), ("A", 7), ("A+", 8),
   ("S", 9), ("S+", 10)]

/-- RANK_ORDER.get(rank): dictionary lookup returning an optional index. -/
def rankLookup (r : String) : Option Nat :=
  rankOrder.lookup r

/-- Udemae.__init__: raises ValueError when the rank is not in RANK_ORDER. -/
def udemaeCreate (r : String) : Except String RateBase :=
  if (rankLookup r).isSome then .ok (.udemae r) else .error "invalid rank"

/-- compare_rate: three-way comparison. XP compares its numeric values,
Udemae compares RANK_ORDER indices; a cross-variant comparison raises
TypeError in the source, modelled as an error result. -/
def compare_rate : RateBase → RateBase → Except String Int
  | .xp a, .xp b =>
      .ok (if a < b then -1 else if a > b then 1 else 0)
  | .xp _, .udemae _ => .error "XP can only be compared with XP"
  | .udemae _, .xp _ => .error "Udemae can only be compared with Udemae"
  | .udemae r, .udemae s =>
      match rankLookup r, rankLookup s with
      | some i, some j => .ok (if i < j then -1 else if i > j then 1 else 0)
      | _, _ => .error "invalid rank"

/-- RateBase.create on a string (the branch used by BattleResult.from_list):
try float(value) and build an XP on success, otherwise build a Udemae
(whose constructor may raise). Python float parsing is external library
behaviour, passed in as pyFloat. -/
def rateCreate (pyFloat : String → Option Rat) (s : String) : Except String RateBase :=
  match pyFloat s with
  | some q => .ok (.xp q)
  | none => udemaeCreate s

/-- The __str__ serialization used by BattleResult.to_list: an XP prints its
float value (Python float formatting passed in as pyStr), a Udemae prints its
rank string. -/
def rateToStr (pyStr : Rat → String) : RateBase → String
  | .xp q => pyStr q
  | .udemae r => r

/-! ### Analyzer.x_power (src/src/analyzer.py lines 250-281)

The OCR-based numeric-rating extraction. The template-matcher dictionary scan
over the single configured rectangle, the OCR call and Python float parsing
are external inputs. The source returns None when OCR is unavailable, when no
matcher fires, when OCR fails, when the text is not numeric, and when the
parsed value is out of range. -/

/-- Analyzer.x_power: the rectangle dictionary holds one entry, whose
matcher-scan outcome is findRes; ocrRes is the OCR call result on the cropped
and rotated region (already stripped); pyFloat models Python float(). -/
def x_power (ocrAvailable : Bool) (findRes : Option String)
    (ocrRes : Except String String) (pyFloat : String → Option Rat) :
    Option (String × RateBase) :=
  if !ocrAvailable then none
  else
    match findRes with
    | none => none
    | some name =>
        match ocrRes with
        | .error _ => none
        | .ok s =>
            match pyFloat s with
            | none => none
            | some xp =>
                if xp < 500 ∨ xp > 5500 then none
                else some (name, .xp xp)

/-! ### Image matcher primitives (src/src/image_matcher.py)

A frame is a 2D BGR pixel buffer, modelled as dimensions plus a pixel
function; Python slicing clamps out-of-range bounds, reproduced in crop.
cv2.cvtColor BGR2HSV is OpenCV library code, passed in as the cvt parameter.
A grayscale mask is represented by the list of coordinates of its selected
pixels (the nonzero pixels for HSVMatcher via countNonZero, the value-255
pixels for UniformColorMatcher and RGBMatcher); iterating over that support
list is extensionally the sources full-array masking: pixels outside the
support are zeroed by bitwise_and and then excluded again by the second
bitwise_and / boolean indexing, so they never contribute to either count. -/

/-- One BGR (or, after conversion, HSV) pixel: three 8-bit channels. -/
def Pixel : Type := Nat × Nat × Nat

instance : DecidableEq Pixel := by
  unfold Pixel
  infer_instance

/-- A frame: height, width and the pixel at each (row, column). -/
structure Image where
  h : Nat
  w : Nat
  px : Nat → Nat → Pixel

/-- Python ndarray slicing image[y1:y2, x1:x2], clamping to the array bounds. -/
def crop (img : Image) (y1 y2 x1 x2 : Nat) : Image :=
  { h := min y2 img.h - y1
    w := min x2 img.w - x1
    px := fun y x => img.px (y1 + y) (x1 + x) }

/-- All (row, column) coordinates of an image, row-major. -/
def coordList (img : Image) : List (Nat × Nat) :=
  (List.range img.h).flatMap (fun y => (List.range img.w).map (fun x => (y, x)))

/-- Largest channel value of one pixel. -/
def pixelMax (p : Pixel) : Nat := max p.1 (max p.2.1 p.2.2)

/-- ndarray.max() over all channels of all pixels. numpy raises on an empty
array; the model returns 0 there, and no theorem depends on that case. -/
def imageMax (img : Image) : Nat :=
  ((coordList img).map (fun c => pixelMax (img.px c.1 c.2))).foldr max 0

/-- Analyzer.black_screen: image.max() <= 20. -/
def black_screen (img : Image) : Bool :=
  imageMax img ≤ 20

/-- cv2.inRange on one pixel: every channel inside the inclusive bounds. -/
def inRangeHSV (lower upper : Pixel) (p : Pixel) : Bool :=
  decide (lower.1 ≤ p.1 ∧ p.1 ≤ upper.1) &&
  decide (lower.2.1 ≤ p.2.1 ∧ p.2.1 ≤ upper.2.1) &&
  decide (lower.2.2 ≤ p.2.2 ∧ p.2.2 ≤ upper.2.2)

/-- HSVMatcher.match on a NON-EMPTY input image: count the pixels whose HSV
value is inside the bounds (restricted to the mask nonzero support when a
mask is present), divide by the selected-pixel total with the sources
explicit zero guard (color_ratio is 0 when total_mask_pixels is 0), and
compare against the threshold. On a zero-area input the source raises inside
cv2.cvtColor before any of this runs; that path is carried by hsvMatchExc
below, and this function is the match computation cvtColor permits. -/
def hsvMatch (cvt : Pixel → Pixel) (lower upper : Pixel)
    (mask : Option (List (Nat × Nat))) (threshold : Rat) (img : Image) : Bool :=
  match mask with
  | some support =>
      let total := support.length
      let cnt := (support.filter
        (fun c => inRangeHSV lower upper (cvt (img.px c.1 c.2)))).length
      let frac : Rat := if total > 0 then (cnt : Rat) / (total : Rat) else 0
      decide (threshold ≤ frac)
  | none =>
      let total := img.h * img.w
      let cnt := ((coordList img).filter
        (fun c => inRangeHSV lower upper (cvt (img.px c.1 c.2)))).length
      let frac : Rat := if total > 0 then (cnt : Rat) / (total : Rat) else 0
      decide (threshold ≤ frac)

/-- The hue values the UniformColorMatcher evaluates: channel 0 of the HSV
conversion, over the mask value-255 support or the whole image. -/
def hueValues (cvt : Pixel → Pixel) (mask : Option (List (Nat × Nat)))
    (img : Image) : List Nat :=
  match mask with
  | some support => support.map (fun c => (cvt (img.px c.1 c.2)).1)
  | none => (coordList img).map (fun c => (cvt (img.px c.1 c.2)).1)

/-- Arithmetic mean of a list of hue values, as an exact rational. -/
def listMean (vs : List Nat) : Rat :=
  (vs.foldr (fun v a => (v : Rat) + a) 0) / (vs.length : Rat)

/-- Population variance (numpy std squared, ddof 0) of a list of hue values. -/
def listVariance (vs : List Nat) : Rat :=
  (vs.foldr (fun v a => ((v : Rat) - listMean vs) ^ 2 + a) 0) / (vs.length : Rat)

/-- UniformColorMatcher.match on a NON-EMPTY input image: false when no pixel
is selected, otherwise the hue standard deviation is at most hue_threshold.
The source compares np.std(values) <= threshold; both sides are nonnegative,
so this is the same as variance <= threshold squared, kept in exact rational
arithmetic. On a zero-area input the source raises inside cv2.cvtColor
before the size guard; that path is carried by uniformMatchExc below. -/
def uniformMatch (cvt : Pixel → Pixel) (mask : Option (List (Nat × Nat)))
    (hueThreshold : Rat) (img : Image) : Bool :=
  let vs := hueValues cvt mask img
  if vs.length = 0 then false
  else decide (listVariance vs ≤ hueThreshold ^ 2)

/-- RGBMatcher.match: fraction of selected pixels exactly equal to the target
triple; returns false outright when zero pixels are selected. -/
def rgbMatch (rgb : Pixel) (mask : Option (List (Nat × Nat)))
    (threshold : Rat) (img : Image) : Bool :=
  match mask with
  | some support =>
      let total := support.length
      let cnt := (support.filter (fun c => decide (img.px c.1 c.2 = rgb))).length
      if total = 0 then false else decide (threshold ≤ (cnt : Rat) / (total : Rat))
  | none =>
      let total := img.h * img.w
      let cnt := ((coordList img).filter
        (fun c => decide (img.px c.1 c.2 = rgb))).length
      if total = 0 then false else decide (threshold ≤ (cnt : Rat) / (total : Rat))

/-- HSVMatcher.match including the cv2.cvtColor precondition: cvtColor
(image_matcher.py line 80) asserts its source is non-empty and raises
cv2.error on a zero-area image — before the ratio guard is ever reached; the
masked image handed to it has the same dimensions as the input, so the check
is on the input image whether or not a mask is present. The exception is
modelled as an error result; on a non-empty image the match proceeds exactly
as hsvMatch. -/
def hsvMatchExc (cvt : Pixel → Pixel) (lower upper : Pixel)
    (mask : Option (List (Nat × Nat))) (threshold : Rat) (img : Image) :
    Except String Bool :=
  if img.h * img.w = 0 then .error "cv2.error: cvtColor empty src"
  else .ok (hsvMatch cvt lower upper mask threshold img)

/-- UniformColorMatcher.match including the cv2.cvtColor precondition:
cvtColor (image_matcher.py line 116) raises cv2.error on a zero-area image
before the empty-selection guard runs; modelled as an error result, with the
non-empty case proceeding exactly as uniformMatch. -/
def uniformMatchExc (cvt : Pixel → Pixel) (mask : Option (List (Nat × Nat)))
    (hueThreshold : Rat) (img : Image) : Except String Bool :=
  if img.h * img.w = 0 then .error "cv2.error: cvtColor empty src"
  else .ok (uniformMatch cvt mask hueThreshold img)

/-- Analyzer.battle_finish (src/src/analyzer.py lines 176-183): crop the
sentinel region image[400:440, 810:840]; require a fresh default
UniformColorMatcher (no mask, hue_threshold 10) to match on it and
black_screen to fail on it; then require both the finish-text HSV matcher
(bounds (0,0,0)-(179,255,50), asset mask, threshold 0.9) and the finish-band
HSV matcher (bounds (0,0,50)-(179,255,255), asset mask, threshold 0.9) to
match on the full frame. The two asset mask supports are parameters. -/
def analyzer_battle_finish (cvt : Pixel → Pixel)
    (finishTextMask finishBandMask : List (Nat × Nat)) (img : Image) : Bool :=
  let cropped := crop img 400 440 810 840
  if !(uniformMatch cvt none 10 cropped) || black_screen cropped then false
  else
    hsvMatch cvt (0, 0, 0) (179, 255, 50) (some finishTextMask) (9 / 10) img &&
    hsvMatch cvt (0, 0, 50) (179, 255, 255) (some finishBandMask) (9 / 10) img

/-! ### Recording state machine (src/src/recorder.py)

One iteration of the Recorder run loop body, after the frame read: the power
supervision step followed by the per-state dispatch. Frames are abstract values
of a type parameter F; the Analyzer frame predicates are abstract functions
constructed from asset files, gathered in AnalyzerSig. Collaborator results
consumed during the iteration (clock readings, OBS command results, the
transcript) form StepEnv; side-effecting commands issued to collaborators are
recorded as a RecEffect list. Python exceptions that escape a handler end the
run loop; they are modelled as Except errors of the step. -/

/-- The RecordStatus enum. -/
inductive RecordStatus where
  | off
  | wait
  | record
  | pause
deriving DecidableEq

/-- The BattleResult accumulator dataclass (src/src/battle_result.py), with
datetimes modelled as rational timestamps. -/
structure BattleResultAcc where
  start : Option Rat
  battle : Option String
  rule : Option String
  stage : Option String
  result : Option String
  kill : Option Int
  death : Option Int
  special : Option Int
  rate : Option RateBase
deriving DecidableEq

/-- BattleResult(): the fresh accumulator with every field empty. -/
def emptyBattleResult : BattleResultAcc :=
  ⟨none, none, none, none, none, none, none, none, none⟩

/-- The Analyzer predicates and extractors the Recorder consults, as abstract
frame functions (they are built from template and mask assets at startup). -/
structure AnalyzerSig (F : Type) where
  power_off : F → Bool
  virtual_camera_off : F → Bool
  change_schedule : F → Bool
  rate : F → Option RateBase
  matching_start : F → Bool
  battle_start : F → Bool
  battle_finish : F → Bool
  battle_result : F → Option String
  battle_result_latter_half : F → Bool
  loading : F → Bool
  battle_stop : F → Bool
  battle_abort : F → Bool
  match_name : F → Option String
  rule_name : F → Option String
  stage_name : F → Option String
  kill_record : F → Option (Int × Int × Int)

/-- Startup configuration: is_recording_mode decides whether an Obs handle
exists (Recorder._initialize_obs returns one exactly in recording mode),
has_transcriber whether a Transcriber was initialized, and
has_power_off_callback whether register_power_off_callback was called. -/
structure RecCfg where
  is_recording_mode : Bool
  has_transcriber : Bool
  has_power_off_callback : Bool

/-- The Recorder mutable fields (the loop status variable is passed
separately, as in run). -/
structure RecState (F : Type) where
  battle_result : BattleResultAcc
  record_start_time : Rat
  last_power_check_time : Rat
  power_off_count : Nat
  should_resume_recording : Option (F → Bool)

/-- Collaborator results consumed during one iteration: the wall clock (one
reading per iteration for both time.time() and datetime.now()), whether
Obs.start_virtual_cam succeeds, the Obs.stop_record result, whether the file
delete succeeds, Obs.extract_start_datetime on the output path, and the
transcript. -/
structure StepEnv where
  now : Rat
  wall_now : Rat
  start_virtual_cam_ok : Bool
  obs_stop_record : Except String String
  remove_file_ok : Bool
  extract_start_datetime : Option Rat
  srt : Option String

/-- Commands the iteration issues to external collaborators. -/
inductive RecEffect (F : Type) where
  | powerOffCallback
  | startVirtualCam
  | obsStartRecord
  | transcriberStart
  | transcriberStop
  | obsPauseRecord
  | obsResumeRecord
  | obsStopRecord
  | removeFile (path : String)
  | queueUpload (path : String) (result : BattleResultAcc) (frame : F)
      (srt : Option String)

/-- Recorder._check_switch_power_status (lines 144-178). Returns the next
status, the updated state, the issued effects, and whether self.stop() was
requested (virtual-camera restart failure). -/
def check_switch_power_status {F : Type} (cfg : RecCfg) (an : AnalyzerSig F)
    (env : StepEnv) (frame : F) (current_status : RecordStatus)
    (st : RecState F) :
    RecordStatus × RecState F × List (RecEffect F) × Bool :=
  if env.now - st.last_power_check_time < 10 then
    (current_status, st, [], false)
  else
    let st1 := { st with last_power_check_time := env.now }
    let st2 :=
      if an.power_off frame then
        { st1 with power_off_count := st1.power_off_count + 1 }
      else
        { st1 with power_off_count := 0 }
    if st2.power_off_count ≥ 3 then
      (RecordStatus.off, st2,
       if current_status ≠ RecordStatus.off ∧ cfg.has_power_off_callback then
         [RecEffect.powerOffCallback]
       else [], false)
    else if an.virtual_camera_off frame then
      if cfg.is_recording_mode then
        (RecordStatus.off, st2, [RecEffect.startVirtualCam],
         !env.start_virtual_cam_ok)
      else
        (RecordStatus.off, st2, [], false)
    else if current_status = RecordStatus.off then
      (RecordStatus.wait, st2, [], false)
    else
      (current_status, st2, [], false)

/-- The Python inequality battle_result.rate != rate: None compares unequal to
any rating; two ratings compare through compare_rate, whose cross-variant
TypeError propagates. -/
def optRateNe (old : Option RateBase) (new : RateBase) : Except String Bool :=
  match old with
  | none => .ok true
  | some r0 =>
      match compare_rate r0 new with
      | .error e => .error e
      | .ok c => .ok (decide (c ≠ 0))

/-- Effects of Recorder._start_record (which also resets record_start_time to
the current clock). -/
def start_record_effects {F : Type} (cfg : RecCfg) : List (RecEffect F) :=
  (if cfg.is_recording_mode then [RecEffect.obsStartRecord] else []) ++
  (if cfg.has_transcriber then [RecEffect.transcriberStart] else [])

/-- Effects of Recorder._pause_record. -/
def pause_effects {F : Type} (cfg : RecCfg) : List (RecEffect F) :=
  if cfg.is_recording_mode then [RecEffect.obsPauseRecord] else []

/-- Effects of Recorder._resume_record. -/
def resume_effects {F : Type} (cfg : RecCfg) : List (RecEffect F) :=
  if cfg.is_recording_mode then [RecEffect.obsResumeRecord] else []

/-- Recorder._handle_wait_status (lines 180-208). -/
def handle_wait_status {F : Type} (cfg : RecCfg) (an : AnalyzerSig F)
    (env : StepEnv) (frame : F) (st : RecState F) :
    Except String (RecordStatus × RecState F × List (RecEffect F)) :=
  let acc := st.battle_result
  if (acc.start ≠ none ∨ acc.rate ≠ none) ∧ an.change_schedule frame then
    .ok (RecordStatus.wait, { st with battle_result := emptyBattleResult }, [])
  else
    let accStep : Except String BattleResultAcc :=
      if acc.start = none then
        let rated : Except String BattleResultAcc :=
          match an.rate frame with
          | some r =>
              match optRateNe acc.rate r with
              | .error e => .error e
              | .ok ne => .ok (if ne then { acc with rate := some r } else acc)
          | none => .ok acc
        match rated with
        | .error e => .error e
        | .ok accA =>
            .ok (if an.matching_start frame then
                   { accA with start := some env.wall_now }
                 else accA)
      else .ok acc
    match accStep with
    | .error e => .error e
    | .ok acc2 =>
        if acc.start = none ∧ cfg.is_recording_mode then
          .ok (RecordStatus.wait, { st with battle_result := acc2 }, [])
        else if an.battle_start frame then
          .ok (RecordStatus.record,
               { st with battle_result := acc2, record_start_time := env.now },
               start_record_effects cfg)
        else
          .ok (RecordStatus.wait, { st with battle_result := acc2 }, [])

/-- Recorder._cancel_record (lines 284-300): stop transcription, stop the
backend recording (on an error result, log and return early), delete the
output file (a failed delete is only logged); the finally block always
replaces the accumulator with a fresh empty one. -/
def cancel_record {F : Type} (cfg : RecCfg) (env : StepEnv) (st : RecState F) :
    RecState F × List (RecEffect F) :=
  let eT : List (RecEffect F) :=
    if cfg.has_transcriber then [RecEffect.transcriberStop] else []
  let eO : List (RecEffect F) :=
    if cfg.is_recording_mode then
      match env.obs_stop_record with
      | .error _ => [RecEffect.obsStopRecord]
      | .ok path => [RecEffect.obsStopRecord, RecEffect.removeFile path]
    else []
  ({ st with battle_result := emptyBattleResult }, eT ++ eO)

/-- Recorder._stop_record (lines 302-336): stop transcription and fetch the
transcript, stop the backend recording (on an error result, log and return
early), backfill the start time from the path timestamp or the wall clock,
classify match, rule, stage and the kill record on the final frame, queue the
upload; the finally block always replaces the accumulator with a fresh empty
one. -/
def stop_record {F : Type} (cfg : RecCfg) (an : AnalyzerSig F) (env : StepEnv)
    (frame : F) (st : RecState F) : RecState F × List (RecEffect F) :=
  let srt := if cfg.has_transcriber then env.srt else none
  let eT : List (RecEffect F) :=
    if cfg.has_transcriber then [RecEffect.transcriberStop] else []
  if cfg.is_recording_mode then
    match env.obs_stop_record with
    | .error _ =>
        ({ st with battle_result := emptyBattleResult },
         eT ++ [RecEffect.obsStopRecord])
    | .ok path =>
        let acc := st.battle_result
        let acc1 :=
          if acc.start = none then
            { acc with start := some (env.extract_start_datetime.getD env.wall_now) }
          else acc
        let acc2 := { acc1 with battle := an.match_name frame, rule := an.rule_name frame, stage := an.stage_name frame }
        let acc3 :=
          match an.kill_record frame with
          | some kds =>
              { acc2 with kill := some kds.1, death := some kds.2.1, special := some kds.2.2 }
          | none => acc2
        ({ st with battle_result := emptyBattleResult },
         eT ++ [RecEffect.obsStopRecord,
                RecEffect.queueUpload path acc3 frame srt])
  else
    ({ st with battle_result := emptyBattleResult }, eT)

/-- Recorder._handle_record_status (lines 210-253). -/
def handle_record_status {F : Type} (cfg : RecCfg) (an : AnalyzerSig F)
    (env : StepEnv) (frame : F) (st : RecState F) :
    RecordStatus × RecState F × List (RecEffect F) :=
  let record_time := env.now - st.record_start_time
  if record_time > 600 then
    let out := stop_record cfg an env frame st
    (RecordStatus.wait, out.1, out.2)
  else if record_time < 90 ∧ an.battle_abort frame then
    let out := cancel_record cfg env st
    (RecordStatus.wait, out.1, out.2)
  else if st.battle_result.result = none then
    if an.battle_finish frame then
      let resumePred := fun f => !(an.battle_result_latter_half f)
      (RecordStatus.pause,
       { st with should_resume_recording := some resumePred },
       pause_effects cfg)
    else
      let accR := { st.battle_result with result := an.battle_result frame }
      (RecordStatus.record, { st with battle_result := accR }, [])
  else if an.loading frame then
    (RecordStatus.pause,
     { st with should_resume_recording := some an.loading },
     pause_effects cfg)
  else if an.battle_stop frame then
    let out := stop_record cfg an env frame st
    (RecordStatus.wait, out.1, out.2)
  else
    (RecordStatus.record, st, [])

/-- Recorder._handle_pause_status (lines 255-263): raises when no resume
predicate is stored; otherwise resumes exactly when the predicate returns
false. -/
def handle_pause_status {F : Type} (cfg : RecCfg) (frame : F)
    (st : RecState F) :
    Except String (RecordStatus × RecState F × List (RecEffect F)) :=
  match st.should_resume_recording with
  | none => .error "resume_check_callback is not set"
  | some p =>
      if p frame then .ok (RecordStatus.pause, st, [])
      else .ok (RecordStatus.record, st, resume_effects cfg)

/-- One iteration of the Recorder run loop body after the frame read: power
supervision, then dispatch on the resulting status (OFF has no handler). The
Bool output records whether self.stop() was requested. -/
def recorder_step {F : Type} (cfg : RecCfg) (an : AnalyzerSig F)
    (env : StepEnv) (frame : F) (status : RecordStatus) (st : RecState F) :
    Except String (RecordStatus × RecState F × List (RecEffect F) × Bool) :=
  match (check_switch_power_status cfg an env frame status st).1 with
  | RecordStatus.off =>
      .ok (RecordStatus.off,
           (check_switch_power_status cfg an env frame status st).2.1,
           (check_switch_power_status cfg an env frame status st).2.2.1,
           (check_switch_power_status cfg an env frame status st).2.2.2)
  | RecordStatus.wait =>
      match handle_wait_status cfg an env frame
          (check_switch_power_status cfg an env frame status st).2.1 with
      | .error e => .error e
      | .ok out2 =>
          .ok (out2.1, out2.2.1,
               (check_switch_power_status cfg an env frame status st).2.2.1 ++ out2.2.2,
               (check_switch_power_status cfg an env frame status st).2.2.2)
  | RecordStatus.record =>
      .ok ((handle_record_status cfg an env frame
              (check_switch_power_status cfg an env frame status st).2.1).1,
           (handle_record_status cfg an env frame
              (check_switch_power_status cfg an env frame status st).2.1).2.1,
           (check_switch_power_status cfg an env frame status st).2.2.1 ++
             (handle_record_status cfg an env frame
                (check_switch_power_status cfg an env frame status st).2.1).2.2,
           (check_switch_power_status cfg an env frame status st).2.2.2)
  | RecordStatus.pause =>
      match handle_pause_status cfg frame
          (check_switch_power_status cfg an env frame status st).2.1 with
      | .error e => .error e
      | .ok out2 =>
          .ok (out2.1, out2.2.1,
               (check_switch_power_status cfg an env frame status st).2.2.1 ++ out2.2.2,
               (check_switch_power_status cfg an env frame status st).2.2.2)

/-! ### Concrete instances used to evaluate the theorems -/

/-- An analyzer whose predicates never fire and whose extractors never
yield a value. -/
def anNone : AnalyzerSig Unit :=
  { power_off := fun _ => false
    virtual_camera_off := fun _ => false
    change_schedule := fun _ => false
    rate := fun _ => none
    matching_start := fun _ => false
    battle_start := fun _ => false
    battle_finish := fun _ => false
    battle_result := fun _ => none
    battle_result_latter_half := fun _ => false
    loading := fun _ => false
    battle_stop := fun _ => false
    battle_abort := fun _ => false
    match_name := fun _ => none
    rule_name := fun _ => none
    stage_name := fun _ => none
    kill_record := fun _ => none }

/-- An analyzer that detects power-off on every frame and nothing else. -/
def anPow : AnalyzerSig Unit :=
  { anNone with power_off := fun _ => true }

/-- An analyzer that detects a battle abort on every frame and nothing else. -/
def anAbort : AnalyzerSig Unit :=
  { anNone with battle_abort := fun _ => true }

/-- Recording mode, no transcriber, no registered power-off callback. -/
def cfgRec : RecCfg :=
  { is_recording_mode := true, has_transcriber := false,
    has_power_off_callback := false }

/-- Collaborator environment at clock time t with a successful backend stop. -/
def envAt (t : Rat) : StepEnv :=
  { now := t, wall_now := 0, start_virtual_cam_ok := true,
    obs_stop_record := .ok "battle.mkv", remove_file_ok := true,
    extract_start_datetime := none, srt := none }

/-- Collaborator environment at clock time 700 where every fallible
finalization sub-step fails: the backend stop returns an error and the file
delete would fail. -/
def envErr : StepEnv :=
  { now := 700, wall_now := 0, start_virtual_cam_ok := true,
    obs_stop_record := .error "stop failed", remove_file_ok := false,
    extract_start_datetime := none, srt := none }

/-- State in OFF after five consecutive power-off-positive checks. -/
def stOff5 : RecState Unit :=
  { battle_result := emptyBattleResult, record_start_time := 0,
    last_power_check_time := 0, power_off_count := 5,
    should_resume_recording := none }

/-- State just after recording started at clock 0, with no resume predicate. -/
def stRec0 : RecState Unit :=
  { battle_result := emptyBattleResult, record_start_time := 0,
    last_power_check_time := 0, power_off_count := 0,
    should_resume_recording := none }

/-- Paused state whose resume predicate still returns true, with two
consecutive power-off-positive checks already recorded. -/
def stPause2 : RecState Unit :=
  { battle_result := emptyBattleResult, record_start_time := 0,
    last_power_check_time := 0, power_off_count := 2,
    should_resume_recording := some (fun _ => true) }

/-- Paused state whose resume predicate returns false. -/
def stPauseF : RecState Unit :=
  { battle_result := emptyBattleResult, record_start_time := 0,
    last_power_check_time := 0, power_off_count := 0,
    should_resume_recording := some (fun _ => false) }

/-- A 401 x 811 frame whose battle_finish sentinel crop (the single pixel at
row 400, column 810) is the flat non-black HSV value (5,0,100), whose pixel
(0,0) lies in the finish-text HSV range and whose pixel (0,1) lies in the
finish-band HSV range. -/
def cImg : Image :=
  { h := 401, w := 811,
    px := fun y x =>
      if y = 0 ∧ x = 0 then (0, 0, 40)
      else if y = 0 ∧ x = 1 then (0, 0, 60)
      else (5, 0, 100) }

/-- The empty frame: a zero-area pixel buffer. -/
def emptyImg : Image :=
  { h := 0, w := 0, px := fun _ _ => (0, 0, 0) }

/-- A non-empty single-pixel frame. -/
def oneImg : Image :=
  { h := 1, w := 1, px := fun _ _ => (0, 0, 0) }

/-! ### Theorems -/

lemma threeWayCmp {A : Type} [LinearOrder A] (x y : A) :
    ((if x < y then (-1 : Int) else if x > y then 1 else 0) = -1 ↔ x < y) ∧
    ((if x < y then (-1 : Int) else if x > y then 1 else 0) = 1 ↔ y < x) ∧
    ((if x < y then (-1 : Int) else if x > y then 1 else 0) = 0 ↔ x = y) := by
  rcases lt_trichotomy x y with h | h | h
  · simp [h, lt_asymm h, ne_of_lt h]
  · subst h
    simp
  · simp [not_lt.mpr h.le, h, ne_of_gt h]

/-- Claim C8: the three-way comparison of two ratings of the same variant
succeeds, and its sign agrees with the variant order (numeric order for XP,
RANK_ORDER index order for Udemae); a cross-variant comparison always fails
with an error and never returns an ordering. -/
theorem claim_c8 :
    (∀ a b : Rat, ∃ c : Int, compare_rate (.xp a) (.xp b) = .ok c ∧
      ((c = -1 ↔ a < b) ∧ (c = 1 ↔ b < a) ∧ (c = 0 ↔ a = b)))
    ∧ (∀ r s i j, rankLookup r = some i → rankLookup s = some j →
      ∃ c : Int, compare_rate (.udemae r) (.udemae s) = .ok c ∧
      ((c = -1 ↔ i < j) ∧ (c = 1 ↔ j < i) ∧ (c = 0 ↔ i = j)))
    ∧ (∀ (a : Rat) (r : String), ∃ e, compare_rate (.xp a) (.udemae r) = .error e)
    ∧ (∀ (a : Rat) (r : String), ∃ e, compare_rate (.udemae r) (.xp a) = .error e) := by
  refine ⟨?_, ?_, ?_, ?_⟩
  · intro a b
    exact ⟨_, rfl, threeWayCmp a b⟩
  · intro r s i j hr hs
    refine ⟨if i < j then -1 else if i > j then 1 else 0, ?_, threeWayCmp i j⟩
    simp [compare_rate, hr, hs]
  · intro a r
    exact ⟨_, rfl⟩
  · intro a r
    exact ⟨_, rfl⟩

/-- Witness for claim C8: comparing the ranks S (index 9) and S+ (index 10). -/
theorem claim_c8_witness :
    ∃ c : Int, compare_rate (.udemae "S") (.udemae "S+") = .ok c ∧
      ((c = -1 ↔ (9 : Nat) < 10) ∧ (c = 1 ↔ (10 : Nat) < 9) ∧
       (c = 0 ↔ (9 : Nat) = 10)) :=
  claim_c8.2.1 "S" "S+" 9 10 (by decide) (by decide)

/-- Claim C9: serializing a rating with __str__ and re-parsing the string with
RateBase.create yields a rating of the same variant whose three-way comparison
against every other rating agrees with the original. The two hypotheses are
the Python library facts the round trip rests on: float(str(x)) recovers x,
and no valid rank label parses as a float. -/
theorem claim_c9 :
    ∀ (pyStr : Rat → String) (pyFloat : String → Option Rat) (r : RateBase),
    (∀ q, r = .xp q → pyFloat (pyStr q) = some q) →
    (∀ rk, r = .udemae rk →
      pyFloat rk = none ∧ (rankLookup rk).isSome = true) →
    ∃ r2, rateCreate pyFloat (rateToStr pyStr r) = .ok r2 ∧
      ∀ other, compare_rate r2 other = compare_rate r other := by
  intro pyStr pyFloat r hx hu
  cases r with
  | xp q =>
      have h := hx q rfl
      exact ⟨.xp q, by simp [rateCreate, rateToStr, h], fun other => rfl⟩
  | udemae rk =>
      have h := hu rk rfl
      refine ⟨.udemae rk, ?_, fun other => rfl⟩
      simp [rateCreate, rateToStr, h.1, udemaeCreate, h.2]

/-- Witness for claim C9: the numeric rating 2500 under a parse model that
round-trips its printed form. -/
theorem claim_c9_witness :
    ∃ r2, rateCreate (fun s => if s = "2500" then some 2500 else none)
        (rateToStr (fun _ => "2500") (.xp 2500)) = .ok r2 ∧
      ∀ other, compare_rate r2 other = compare_rate (.xp 2500) other :=
  claim_c9 (fun _ => "2500") (fun s => if s = "2500" then some 2500 else none)
    (.xp 2500)
    (by intro q hq; cases hq; simp)
    (by intro rk hrk; exact RateBase.noConfusion hrk)

/-- Claim C7, amended part: whenever the OCR-based extraction x_power yields a
rating, that rating is numeric and its value lies inside [500, 5500]; an
out-of-range OCR reading is rejected as no rating available. -/
theorem claim_c7 :
    ∀ (oa : Bool) (fr : Option String) (ocr : Except String String)
      (pf : String → Option Rat) (name : String) (r : RateBase),
    x_power oa fr ocr pf = some (name, r) →
    ∃ q : Rat, r = .xp q ∧ 500 ≤ q ∧ q ≤ 5500 := by
  intro oa fr ocr pf name r h
  cases oa with
  | false => simp [x_power] at h
  | true =>
    cases fr with
    | none => simp [x_power] at h
    | some nm =>
      cases ocr with
      | error e => simp [x_power] at h
      | ok s =>
        cases hpf : pf s with
        | none => simp [x_power, hpf] at h
        | some xp =>
          by_cases hr : xp < 500 ∨ xp > 5500
          · simp [x_power, hpf, hr] at h
          · simp [x_power, hpf, hr] at h
            push_neg at hr
            exact ⟨xp, h.2.symm, hr.1, hr.2⟩

/-- Witness for claim C7 amended theorem: an OCR reading of 2000 is accepted
and lies inside the valid range. -/
theorem claim_c7_witness :
    ∃ q : Rat, RateBase.xp 2000 = .xp q ∧ 500 ≤ q ∧ q ≤ 5500 :=
  claim_c7 true (some "area") (.ok "2000")
    (fun s => if s = "2000" then some 2000 else none) "area" (.xp 2000)
    (by norm_num [x_power])

/-- Counterexample for claim C7 as stated: the numeric variant constructor
enforces no range, so RateBase.create (the deserialization entry point, which
calls XP.__init__ directly) happily builds an XP rating carrying 9999, far
outside [500, 5500]. -/
theorem claim_c7_counterexample :
    rateCreate (fun s => if s = "9999" then some 9999 else none) "9999" =
      .ok (.xp 9999) ∧ (5500 : Rat) < 9999 := by
  constructor
  · rfl
  · norm_num

/-- Claim C1, amended: battle_finish returns true exactly when the flat-color
check on the sentinel crop HOLDS (the region IS a single flat color), the
black-screen check on that crop fails, and both the finish-text and
finish-band HSV-range matches hold. The claim as stated had the polarity of
the flat-color conjunct inverted. -/
theorem claim_c1 :
    ∀ (cvt : Pixel → Pixel) (ftM fbM : List (Nat × Nat)) (img : Image),
    analyzer_battle_finish cvt ftM fbM img = true ↔
      (uniformMatch cvt none 10 (crop img 400 440 810 840) = true ∧
       black_screen (crop img 400 440 810 840) = false ∧
       hsvMatch cvt (0, 0, 0) (179, 255, 50) (some ftM) (9 / 10) img = true ∧
       hsvMatch cvt (0, 0, 50) (179, 255, 255) (some fbM) (9 / 10) img = true) := by
  intro cvt ftM fbM img
  unfold analyzer_battle_finish
  cases hu : uniformMatch cvt none 10 (crop img 400 440 810 840) <;>
    cases hb : black_screen (crop img 400 440 810 840) <;>
      simp [hu, hb]

/-- Counterexample for claim C1 as stated: a concrete frame on which
battle_finish returns true while the flat-color check on the sentinel region
HOLDS — the code requires the region to be flat, not the opposite as the
claim says, so returning true with the flat check failing is impossible. -/
theorem claim_c1_counterexample :
    analyzer_battle_finish (fun p => p) [(0, 0)] [(0, 1)] cImg = true ∧
    uniformMatch (fun p => p) none 10 (crop cImg 400 440 810 840) = true := by
  have hvals : hueValues (fun p => p) none (crop cImg 400 440 810 840) = [5] := by rfl
  have hu : uniformMatch (fun p => p) none 10 (crop cImg 400 440 810 840) = true := by
    rw [uniformMatch, hvals]
    norm_num [listVariance, listMean]
  have hb : black_screen (crop cImg 400 440 810 840) = false := by rfl
  have hcnt : ([((0 : Nat), (0 : Nat))].filter
      (fun c => inRangeHSV (0, 0, 0) (179, 255, 50) ((fun p => p) (cImg.px c.1 c.2)))).length = 1 := by rfl
  have hft : hsvMatch (fun p => p) (0, 0, 0) (179, 255, 50) (some [(0, 0)]) (9 / 10) cImg = true := by
    rw [hsvMatch]
    rw [hcnt]
    norm_num
  have hcnt2 : ([((0 : Nat), (1 : Nat))].filter
      (fun c => inRangeHSV (0, 0, 50) (179, 255, 255) ((fun p => p) (cImg.px c.1 c.2)))).length = 1 := by rfl
  have hfb : hsvMatch (fun p => p) (0, 0, 50) (179, 255, 255) (some [(0, 1)]) (9 / 10) cImg = true := by
    rw [hsvMatch]
    rw [hcnt2]
    norm_num
  refine ⟨?_, hu⟩
  simp only [analyzer_battle_finish, hu, hb, hft, hfb, Bool.not_true, Bool.false_or,
    Bool.and_self, if_false, Bool.false_eq_true]

/-- Claim C10, amended: when a mask selects zero pixels of a NON-EMPTY
evaluated region, the hue-uniformity and RGB-ratio matchers return false and
the HSV matcher ratio is guarded to 0 — false whenever its threshold is
positive (as in every matcher this program constructs; a zero threshold makes
the empty comparison 0 >= 0 succeed) — and the division by the selected-pixel
count is guarded, so no division-by-zero occurs. A zero-area evaluated
region, however, does not return false from the HSV and hue-uniformity
matchers: their cv2.cvtColor call raises before any guard runs; only the
RGB-ratio matcher, which performs no color conversion, returns false there. -/
theorem claim_c10 :
    (∀ (cvt : Pixel → Pixel) (lb ub : Pixel) (thr : Rat) (img : Image),
      0 < thr → 0 < img.h * img.w →
      hsvMatchExc cvt lb ub (some []) thr img = .ok false)
    ∧ (∀ (cvt : Pixel → Pixel) (lb ub : Pixel)
        (mask : Option (List (Nat × Nat))) (thr : Rat) (img : Image),
      img.h * img.w = 0 →
      ∃ e, hsvMatchExc cvt lb ub mask thr img = .error e)
    ∧ (∀ (cvt : Pixel → Pixel) (thr : Rat) (img : Image),
      0 < img.h * img.w → uniformMatchExc cvt (some []) thr img = .ok false)
    ∧ (∀ (cvt : Pixel → Pixel) (mask : Option (List (Nat × Nat)))
        (thr : Rat) (img : Image),
      img.h * img.w = 0 → ∃ e, uniformMatchExc cvt mask thr img = .error e)
    ∧ (∀ (rgb : Pixel) (thr : Rat) (img : Image),
      rgbMatch rgb (some []) thr img = false)
    ∧ (∀ (rgb : Pixel) (thr : Rat) (img : Image),
      img.h * img.w = 0 → rgbMatch rgb none thr img = false) := by
  refine ⟨?_, ?_, ?_, ?_, ?_, ?_⟩
  · intro cvt lb ub thr img h hne
    have h0 : ¬ (img.h * img.w = 0) := Nat.pos_iff_ne_zero.mp hne
    simp [hsvMatchExc, h0, hsvMatch, not_le.mpr h]
  · intro cvt lb ub mask thr img h0
    exact ⟨"cv2.error: cvtColor empty src", by simp [hsvMatchExc, h0]⟩
  · intro cvt thr img hne
    have h0 : ¬ (img.h * img.w = 0) := Nat.pos_iff_ne_zero.mp hne
    simp [uniformMatchExc, h0, uniformMatch, hueValues]
  · intro cvt mask thr img h0
    exact ⟨"cv2.error: cvtColor empty src", by simp [uniformMatchExc, h0]⟩
  · intro rgb thr img
    simp [rgbMatch]
  · intro rgb thr img h0
    simp [rgbMatch, h0]

/-- Witness for claim C10 amended theorem: the empty-mask cases evaluated
with a positive threshold on a non-empty single-pixel frame, and the
zero-area cases on the empty frame. -/
theorem claim_c10_witness :
    hsvMatchExc (fun p => p) (0, 0, 0) (179, 255, 255) (some []) (9 / 10) oneImg = .ok false ∧
    (∃ e, hsvMatchExc (fun p => p) (0, 0, 0) (179, 255, 255) none (9 / 10) emptyImg = .error e) ∧
    uniformMatchExc (fun p => p) (some []) 10 oneImg = .ok false ∧
    (∃ e, uniformMatchExc (fun p => p) none 10 emptyImg = .error e) ∧
    rgbMatch (255, 255, 255) (some []) (9 / 10) oneImg = false ∧
    rgbMatch (255, 255, 255) none (9 / 10) emptyImg = false :=
  ⟨claim_c10.1 (fun p => p) (0, 0, 0) (179, 255, 255) (9 / 10) oneImg (by norm_num) (by norm_num [oneImg]),
   claim_c10.2.1 (fun p => p) (0, 0, 0) (179, 255, 255) none (9 / 10) emptyImg (by rfl),
   claim_c10.2.2.1 (fun p => p) 10 oneImg (by norm_num [oneImg]),
   claim_c10.2.2.2.1 (fun p => p) none 10 emptyImg (by rfl),
   claim_c10.2.2.2.2.1 (255, 255, 255) (9 / 10) oneImg,
   claim_c10.2.2.2.2.2 (255, 255, 255) (9 / 10) emptyImg (by rfl)⟩

/-- Counterexample for claim C10 as stated: (i) an HSV matcher constructed
with threshold 0 (inside the constructor documented range 0.0 to 1.0) whose
mask selects zero pixels of a non-empty frame returns TRUE, not false,
because the guarded ratio 0 satisfies 0 >= 0; and (ii) on a zero-area
evaluated region the HSV matcher raises inside cv2.cvtColor instead of
returning false. -/
theorem claim_c10_counterexample :
    hsvMatchExc (fun p => p) (0, 0, 0) (179, 255, 255) (some []) 0 oneImg = .ok true ∧
    (∃ e, hsvMatchExc (fun p => p) (0, 0, 0) (179, 255, 255) none (9 / 10) emptyImg = .error e) := by
  constructor
  · rfl
  · exact ⟨_, rfl⟩

lemma stop_record_resets {F : Type} (cfg : RecCfg) (an : AnalyzerSig F)
    (env : StepEnv) (frame : F) (st : RecState F) :
    (stop_record cfg an env frame st).1.battle_result = emptyBattleResult := by
  unfold stop_record
  cases hm : cfg.is_recording_mode <;> cases env.obs_stop_record <;> simp

lemma stop_record_obs_mem {F : Type} (cfg : RecCfg) (an : AnalyzerSig F)
    (env : StepEnv) (frame : F) (st : RecState F)
    (hm : cfg.is_recording_mode = true) :
    RecEffect.obsStopRecord ∈ (stop_record cfg an env frame st).2 := by
  unfold stop_record
  cases env.obs_stop_record <;> simp [hm]

lemma stop_record_no_remove {F : Type} (cfg : RecCfg) (an : AnalyzerSig F)
    (env : StepEnv) (frame : F) (st : RecState F) (p : String) :
    RecEffect.removeFile p ∉ (stop_record cfg an env frame st).2 := by
  unfold stop_record
  cases hm : cfg.is_recording_mode <;> cases env.obs_stop_record <;>
    cases ht : cfg.has_transcriber <;> simp [hm, ht]

lemma cancel_record_resets {F : Type} (cfg : RecCfg) (env : StepEnv)
    (st : RecState F) :
    (cancel_record cfg env st).1.battle_result = emptyBattleResult := by
  unfold cancel_record
  simp

lemma cancel_record_no_queue {F : Type} (cfg : RecCfg) (env : StepEnv)
    (st : RecState F) (p : String) (acc : BattleResultAcc) (f : F)
    (s : Option String) :
    RecEffect.queueUpload p acc f s ∉ (cancel_record cfg env st).2 := by
  unfold cancel_record
  cases hm : cfg.is_recording_mode <;> cases env.obs_stop_record <;>
    cases ht : cfg.has_transcriber <;> simp [hm, ht]

lemma cancel_record_remove_mem {F : Type} (cfg : RecCfg) (env : StepEnv)
    (st : RecState F) (p : String) (hm : cfg.is_recording_mode = true)
    (ho : env.obs_stop_record = .ok p) :
    RecEffect.removeFile p ∈ (cancel_record cfg env st).2 := by
  unfold cancel_record
  simp [hm, ho]

lemma pause_effects_no_remove {F : Type} (cfg : RecCfg) (p : String) :
    RecEffect.removeFile p ∉ (pause_effects cfg : List (RecEffect F)) := by
  unfold pause_effects
  cases hm : cfg.is_recording_mode <;> simp

/-- Claim C3: in state RECORD, once the elapsed recording time exceeds 600
seconds the step stops and finalizes (the accumulator is replaced by a fresh
empty one and, in recording mode, a backend stop command is issued) and
returns WAIT, for every frame and every analyzer outcome. -/
theorem claim_c3 :
    ∀ (F : Type) (cfg : RecCfg) (an : AnalyzerSig F) (env : StepEnv)
      (frame : F) (st : RecState F),
    600 < env.now - st.record_start_time →
    (handle_record_status cfg an env frame st).1 = RecordStatus.wait ∧
    (handle_record_status cfg an env frame st).2.1.battle_result = emptyBattleResult ∧
    (cfg.is_recording_mode = true →
      RecEffect.obsStopRecord ∈ (handle_record_status cfg an env frame st).2.2) := by
  intro F cfg an env frame st h
  refine ⟨?_, ?_, ?_⟩
  · simp [handle_record_status, h]
  · simp [handle_record_status, h, stop_record_resets]
  · intro hm
    simp [handle_record_status, h, stop_record_obs_mem cfg an env frame st hm]

/-- Witness for claim C3: a recording that started at clock 0 observed at
clock 700 stops and returns WAIT even though no analyzer predicate fires. -/
theorem claim_c3_witness :
    ((600 : Rat) < (envAt 700).now - stRec0.record_start_time) ∧
    ((handle_record_status cfgRec anNone (envAt 700) () stRec0).1 = RecordStatus.wait ∧
     (handle_record_status cfgRec anNone (envAt 700) () stRec0).2.1.battle_result = emptyBattleResult ∧
     (cfgRec.is_recording_mode = true →
       RecEffect.obsStopRecord ∈ (handle_record_status cfgRec anNone (envAt 700) () stRec0).2.2)) :=
  ⟨by norm_num [envAt, stRec0],
   claim_c3 Unit cfgRec anNone (envAt 700) () stRec0 (by norm_num [envAt, stRec0])⟩

/-- Claim C6: both finalization (_stop_record) and cancellation
(_cancel_record) always reset the accumulator to a fresh empty instance — for
every environment, including those where the backend stop returns an error,
the file delete fails, the path timestamp is absent or every metadata
extraction fails — and every RECORD-state step that returns WAIT leaves the
freshly reset accumulator in place rather than getting stuck. -/
theorem claim_c6 :
    ∀ (F : Type) (cfg : RecCfg) (an : AnalyzerSig F) (env : StepEnv)
      (frame : F) (st : RecState F),
    (stop_record cfg an env frame st).1.battle_result = emptyBattleResult ∧
    (cancel_record cfg env st).1.battle_result = emptyBattleResult ∧
    ((handle_record_status cfg an env frame st).1 = RecordStatus.wait →
      (handle_record_status cfg an env frame st).2.1.battle_result = emptyBattleResult) := by
  intro F cfg an env frame st
  refine ⟨stop_record_resets cfg an env frame st, cancel_record_resets cfg env st, ?_⟩
  intro hw
  unfold handle_record_status at hw ⊢
  by_cases h600 : (600 : Rat) < env.now - st.record_start_time
  · simp [h600, stop_record_resets]
  · simp only [gt_iff_lt, h600, if_false] at hw ⊢
    by_cases habort : (env.now - st.record_start_time < 90 ∧ an.battle_abort frame = true)
    · simp [habort, cancel_record_resets]
    · simp only [habort, if_false] at hw ⊢
      by_cases hres : st.battle_result.result = none
      · by_cases hfin : an.battle_finish frame = true
        · simp [hres, hfin] at hw
        · simp [hres, hfin] at hw
      · by_cases hload : an.loading frame = true
        · simp [hres, hload] at hw
        · by_cases hstop : an.battle_stop frame = true
          · simp [hres, hload, hstop, stop_record_resets]
          · simp [hres, hload, hstop] at hw

/-- Witness for claim C6: at clock 700 with a failing backend stop, a failing
file delete and no extractable metadata, the RECORD step still returns WAIT
with a freshly reset accumulator. -/
theorem claim_c6_witness :
    (stop_record cfgRec anNone envErr () stRec0).1.battle_result = emptyBattleResult ∧
    (cancel_record cfgRec envErr stRec0).1.battle_result = emptyBattleResult ∧
    (handle_record_status cfgRec anNone envErr () stRec0).2.1.battle_result = emptyBattleResult :=
  ⟨(claim_c6 Unit cfgRec anNone envErr () stRec0).1,
   (claim_c6 Unit cfgRec anNone envErr () stRec0).2.1,
   (claim_c6 Unit cfgRec anNone envErr () stRec0).2.2
     (by norm_num [handle_record_status, envErr, stRec0, stop_record_resets])⟩

/-- Claim C4: in state RECORD, a battle-abort detection before 90 seconds of
recording cancels — the step returns WAIT, the accumulator is discarded, no
upload handoff is in the effects and the output file is deleted (when the
backend stop hands back a path); once 90 seconds have elapsed, no step ever
deletes a file, and WAIT can only be reached through the 600-second timeout
or a normal battle-stop finalization, so the identical abort signal triggers
no cancellation. -/
theorem claim_c4 :
    ∀ (F : Type) (cfg : RecCfg) (an : AnalyzerSig F) (env : StepEnv)
      (frame : F) (st : RecState F),
    ((env.now - st.record_start_time < 90 ∧ an.battle_abort frame = true) →
      (handle_record_status cfg an env frame st).1 = RecordStatus.wait ∧
      (handle_record_status cfg an env frame st).2.1.battle_result = emptyBattleResult ∧
      (∀ p acc f s, RecEffect.queueUpload p acc f s ∉
        (handle_record_status cfg an env frame st).2.2) ∧
      (∀ p, cfg.is_recording_mode = true → env.obs_stop_record = .ok p →
        RecEffect.removeFile p ∈ (handle_record_status cfg an env frame st).2.2))
    ∧ (90 ≤ env.now - st.record_start_time →
      (∀ p, RecEffect.removeFile p ∉ (handle_record_status cfg an env frame st).2.2) ∧
      ((handle_record_status cfg an env frame st).1 = RecordStatus.wait →
        600 < env.now - st.record_start_time ∨
        (st.battle_result.result ≠ none ∧ an.battle_stop frame = true))) := by
  intro F cfg an env frame st
  constructor
  · intro h
    have h600 : ¬ ((600 : Rat) < env.now - st.record_start_time) := by
      have h90 := h.1
      intro hc
      have : (600 : Rat) < 90 := lt_trans hc h90
      norm_num at this
    refine ⟨?_, ?_, ?_, ?_⟩
    · simp [handle_record_status, h600, h]
    · simp [handle_record_status, h600, h, cancel_record_resets]
    · intro p acc f s
      simp [handle_record_status, h600, h, cancel_record_no_queue cfg env st p acc f s]
    · intro p hm ho
      simp [handle_record_status, h600, h, cancel_record_remove_mem cfg env st p hm ho]
  · intro h
    have habort : ¬ (env.now - st.record_start_time < 90 ∧ an.battle_abort frame = true) := by
      intro hc
      exact absurd h (not_le.mpr hc.1)
    by_cases h600 : (600 : Rat) < env.now - st.record_start_time
    · constructor
      · intro p
        simp [handle_record_status, h600, stop_record_no_remove]
      · intro _
        exact Or.inl h600
    · by_cases hres : st.battle_result.result = none
      · by_cases hfin : an.battle_finish frame = true
        · constructor
          · intro p
            simp [handle_record_status, h600, habort, hres, hfin, pause_effects_no_remove]
          · intro hw
            simp [handle_record_status, h600, habort, hres, hfin] at hw
        · constructor
          · intro p
            simp [handle_record_status, h600, habort, hres, hfin]
          · intro hw
            simp [handle_record_status, h600, habort, hres, hfin] at hw
      · by_cases hload : an.loading frame = true
        · constructor
          · intro p
            simp [handle_record_status, h600, habort, hres, hload, pause_effects_no_remove]
          · intro hw
            simp [handle_record_status, h600, habort, hres, hload] at hw
        · by_cases hstop : an.battle_stop frame = true
          · constructor
            · intro p
              simp [handle_record_status, h600, habort, hres, hload, hstop, stop_record_no_remove]
            · intro _
              exact Or.inr ⟨hres, hstop⟩
          · constructor
            · intro p
              simp [handle_record_status, h600, habort, hres, hload, hstop]
            · intro hw
              simp [handle_record_status, h600, habort, hres, hload, hstop] at hw

/-- Witness for claim C4: an abort detected 50 seconds into the recording
cancels (WAIT, accumulator discarded, no handoff, file deleted), and at 90
or more seconds the same abort signal leads to no file deletion and the step
stays in RECORD. -/
theorem claim_c4_witness :
    (((envAt 50).now - stRec0.record_start_time < 90 ∧ anAbort.battle_abort () = true) ∧
     ((handle_record_status cfgRec anAbort (envAt 50) () stRec0).1 = RecordStatus.wait ∧
      (handle_record_status cfgRec anAbort (envAt 50) () stRec0).2.1.battle_result = emptyBattleResult ∧
      (∀ p acc f s, RecEffect.queueUpload p acc f s ∉
        (handle_record_status cfgRec anAbort (envAt 50) () stRec0).2.2) ∧
      (∀ p, cfgRec.is_recording_mode = true → (envAt 50).obs_stop_record = .ok p →
        RecEffect.removeFile p ∈ (handle_record_status cfgRec anAbort (envAt 50) () stRec0).2.2)))
    ∧ (((90 : Rat) ≤ (envAt 100).now - stRec0.record_start_time) ∧
       ((∀ p, RecEffect.removeFile p ∉
          (handle_record_status cfgRec anAbort (envAt 100) () stRec0).2.2) ∧
        ((handle_record_status cfgRec anAbort (envAt 100) () stRec0).1 = RecordStatus.wait →
          600 < (envAt 100).now - stRec0.record_start_time ∨
          (stRec0.battle_result.result ≠ none ∧ anAbort.battle_stop () = true)))) :=
  ⟨⟨⟨by norm_num [envAt, stRec0], by simp [anAbort, anNone]⟩,
    (claim_c4 Unit cfgRec anAbort (envAt 50) () stRec0).1
      ⟨by norm_num [envAt, stRec0], by simp [anAbort, anNone]⟩⟩,
   ⟨by norm_num [envAt, stRec0],
    (claim_c4 Unit cfgRec anAbort (envAt 100) () stRec0).2
      (by norm_num [envAt, stRec0])⟩⟩

/-- Claim C2, amended: the 3-consecutive-detection debounce guards only the
transition INTO OFF — from any non-OFF state, while fewer than 3 consecutive
power-off-positive checks have accumulated (and no virtual-camera-off is
seen), the status never changes, so a single transient power-off frame never
flips the state toward OFF; but from OFF, the very first checked frame whose
power-off detection is negative (with no virtual-camera-off) already
transitions to WAIT — no run of 3 power-off-negative detections is
required. -/
theorem claim_c2 :
    (∀ (F : Type) (cfg : RecCfg) (an : AnalyzerSig F) (env : StepEnv)
       (frame : F) (status : RecordStatus) (st : RecState F),
      status ≠ RecordStatus.off →
      st.power_off_count + 1 < 3 →
      an.virtual_camera_off frame = false →
      (check_switch_power_status cfg an env frame status st).1 = status)
    ∧ (∀ (F : Type) (cfg : RecCfg) (an : AnalyzerSig F) (env : StepEnv)
        (frame : F) (st : RecState F),
      10 ≤ env.now - st.last_power_check_time →
      an.power_off frame = false →
      an.virtual_camera_off frame = false →
      (check_switch_power_status cfg an env frame RecordStatus.off st).1 =
        RecordStatus.wait) := by
  constructor
  · intro F cfg an env frame status st hs hc hv
    unfold check_switch_power_status
    by_cases ht : env.now - st.last_power_check_time < 10
    · simp [ht]
    · cases hp : an.power_off frame
      · simp [ht, hp, hv, hs]
      · have h3 : ¬ (st.power_off_count + 1 ≥ 3) := by omega
        simp [ht, hp, hv, hs, h3]
  · intro F cfg an env frame st ht0 hp hv
    have ht : ¬ (env.now - st.last_power_check_time < 10) := not_lt.mpr ht0
    unfold check_switch_power_status
    simp [ht, hp, hv]

/-- Witness for claim C2 amended theorem: a non-OFF state with no
accumulated power-off detections stays put, and OFF flips to WAIT on the
first power-off-negative check. -/
theorem claim_c2_witness :
    (RecordStatus.wait ≠ RecordStatus.off ∧ stRec0.power_off_count + 1 < 3 ∧
     (check_switch_power_status cfgRec anNone (envAt 100) () RecordStatus.wait stRec0).1 =
       RecordStatus.wait)
    ∧ ((10 : Rat) ≤ (envAt 100).now - stRec0.last_power_check_time ∧
       (check_switch_power_status cfgRec anNone (envAt 100) () RecordStatus.off stRec0).1 =
         RecordStatus.wait) :=
  ⟨⟨by simp, by norm_num [stRec0],
    claim_c2.1 Unit cfgRec anNone (envAt 100) () RecordStatus.wait stRec0
      (by simp) (by norm_num [stRec0]) (by simp [anNone])⟩,
   ⟨by norm_num [envAt, stRec0],
    claim_c2.2 Unit cfgRec anNone (envAt 100) () stRec0
      (by norm_num [envAt, stRec0]) (by simp [anNone]) (by simp [anNone])⟩⟩

/-- Counterexample for claim C2 as stated: in OFF after five consecutive
power-off-positive checks, a single power-off-negative frame — one transient
detection, not a sustained run of 3 — already flips the machine to WAIT. -/
theorem claim_c2_counterexample :
    stOff5.power_off_count = 5 ∧
    anNone.power_off () = false ∧
    Except.map (fun out => out.1)
      (recorder_step cfgRec anNone (envAt 100) () RecordStatus.off stOff5) =
      .ok RecordStatus.wait := by
  refine ⟨rfl, rfl, ?_⟩
  norm_num [recorder_step, check_switch_power_status, handle_wait_status,
    anNone, stOff5, envAt, cfgRec, emptyBattleResult, Except.map]

lemma check_from_pause {F : Type} (cfg : RecCfg) (an : AnalyzerSig F)
    (env : StepEnv) (frame : F) (st : RecState F) :
    (check_switch_power_status cfg an env frame RecordStatus.pause st).1 =
      RecordStatus.pause ∨
    (check_switch_power_status cfg an env frame RecordStatus.pause st).1 =
      RecordStatus.off := by
  unfold check_switch_power_status
  by_cases ht : env.now - st.last_power_check_time < 10
  · left
    simp [ht]
  · simp only [ht, if_false]
    split_ifs <;> simp_all

lemma handle_pause_statuses {F : Type} (cfg : RecCfg) (frame : F)
    (st : RecState F) (s2 : RecordStatus) (st2 : RecState F)
    (e2 : List (RecEffect F))
    (h : handle_pause_status cfg frame st = .ok (s2, st2, e2)) :
    s2 = RecordStatus.pause ∨ s2 = RecordStatus.record := by
  unfold handle_pause_status at h
  cases hsr : st.should_resume_recording with
  | none =>
      rw [hsr] at h
      simp at h
  | some p =>
      rw [hsr] at h
      by_cases hp : p frame = true
      · simp [hp] at h
        exact Or.inl h.1.symm
      · simp [hp] at h
        exact Or.inr h.1.symm

/-- Claim C5, amended: the PAUSE dispatch with a stored resume predicate
returns to RECORD (issuing a resume command) exactly on a frame where the
predicate is false and stays in PAUSE exactly while it is true; the full loop
iteration from PAUSE, however, can reach not only PAUSE and RECORD but also
OFF, through the power-off / virtual-camera supervision that runs before the
dispatch. -/
theorem claim_c5 :
    (∀ (F : Type) (cfg : RecCfg) (frame : F) (st : RecState F) (p : F → Bool),
      st.should_resume_recording = some p →
      ((p frame = false →
        handle_pause_status cfg frame st =
          .ok (RecordStatus.record, st, resume_effects cfg)) ∧
       (p frame = true →
        handle_pause_status cfg frame st = .ok (RecordStatus.pause, st, []))))
    ∧ (∀ (F : Type) (cfg : RecCfg) (an : AnalyzerSig F) (env : StepEnv)
        (frame : F) (st : RecState F) (s2 : RecordStatus) (st2 : RecState F)
        (e2 : List (RecEffect F)) (b : Bool),
        recorder_step cfg an env frame RecordStatus.pause st = .ok (s2, st2, e2, b) →
        s2 = RecordStatus.pause ∨ s2 = RecordStatus.record ∨ s2 = RecordStatus.off) := by
  constructor
  · intro F cfg frame st p hsr
    constructor
    · intro hp
      simp [handle_pause_status, hsr, hp]
    · intro hp
      simp [handle_pause_status, hsr, hp]
  · intro F cfg an env frame st s2 st2 e2 b h
    unfold recorder_step at h
    rcases check_from_pause cfg an env frame st with hc | hc
    · rw [hc] at h
      cases hh : handle_pause_status cfg frame
          (check_switch_power_status cfg an env frame RecordStatus.pause st).2.1 with
      | error e =>
          rw [hh] at h
          simp at h
      | ok out2 =>
          rw [hh] at h
          simp at h
          obtain ⟨o1, o2, o3⟩ := out2
          rcases handle_pause_statuses cfg frame _ o1 o2 o3 hh with h1 | h1
          · exact Or.inl (h.1 ▸ h1)
          · exact Or.inr (Or.inl (h.1 ▸ h1))
    · rw [hc] at h
      simp at h
      exact Or.inr (Or.inr h.1.symm)

/-- Witness for claim C5 amended theorem: a paused state whose resume
predicate returns false resumes to RECORD with a backend resume command. -/
theorem claim_c5_witness :
    stPauseF.should_resume_recording = some (fun _ => false) ∧
    handle_pause_status cfgRec () stPauseF =
      .ok (RecordStatus.record, stPauseF, resume_effects cfgRec) :=
  ⟨rfl, (claim_c5.1 Unit cfgRec () stPauseF (fun _ => false) rfl).1 rfl⟩

/-- Counterexample for claim C5 as stated: from PAUSE (with a stored resume
predicate still returning true), a third consecutive power-off-positive check
moves the machine to OFF — a transition out of PAUSE to a state that is
neither PAUSE nor RECORD. -/
theorem claim_c5_counterexample :
    stPause2.should_resume_recording.isSome = true ∧
    Except.map (fun out => out.1)
      (recorder_step cfgRec anPow (envAt 10) () RecordStatus.pause stPause2) =
      .ok RecordStatus.off := by
  refine ⟨rfl, ?_⟩
  norm_num [recorder_step, check_switch_power_status, anPow, anNone, stPause2,
    envAt, cfgRec, Except.map]
